import Mathlib

/-!
Verification development for the `btd_client` Baltic Transparency dashboard
client (`src/btd_client/source.py`).

The Python code is shallowly embedded as executable Lean definitions:

* JSON cell values become the inductive `JVal` (a JSON number, a non-numeric
  cell such as a string, or a null/NaN cell).
* A parsed response (`json.loads(response)['data']`) becomes `ResponseData`,
  holding the `columns` descriptor list and the `timeseries` entry list.
* Timestamps are absolute instants modelled as integer seconds since the Unix
  epoch; the `Europe/Vilnius` conversion performed by
  `pd.to_datetime(...).dt.tz_convert('Europe/Vilnius').dt.tz_localize(None)`
  is modelled by `vilniusNaive` (EU daylight-saving rules, valid for the era
  the dashboard serves, 2003 onwards).
* A pandas `DataFrame` produced by `_unravel_response` becomes `ResultTable`:
  an ordered list of data-column names, the `datetime` index, and the rows
  aligned to the columns (missing cells are `JVal.null`, as in pandas).
* Fallible Python code (raising `ValueError` / `KeyError` / `TimeoutError` /
  `TypeError`) is embedded with `Except String`.
-/

namespace BTD

/-- A JSON/pandas cell value: a number, a non-numeric cell (e.g. a string,
which `pd.to_numeric(errors='coerce')` turns into missing), or null/NaN. -/
inductive JVal where
  | num (q : ℚ)
  | str (s : String)
  | null
deriving DecidableEq, Repr

/-- One entry of `response_json['data']['columns']`: a positional `index`, a
top-level group label, an optional second-level group label and a leaf label.
`none` models an absent dictionary key (access raises `KeyError`). -/
structure ColumnInfo where
  index : Nat
  group_level_0 : Option String := none
  group_level_1 : Option String := none
  label : Option String := none
deriving DecidableEq, Repr

/-- One entry of `response_json['data']['timeseries']`: the `from` timestamp
(an absolute instant, seconds since the Unix epoch) and the positional
values. -/
structure TimeseriesEntry where
  fromTime : Int
  values : List JVal
deriving DecidableEq, Repr

/-- The parsed shape `response_json['data']` that `_unravel_response` reads. -/
structure ResponseData where
  columns : List ColumnInfo
  timeseries : List TimeseriesEntry
deriving DecidableEq, Repr

/-! ## Association lists with Python `dict` semantics -/

/-- Lookup in an association list (first binding wins; there is at most one
binding per key in lists built by `upsert`). -/
def alookup {α β : Type} [DecidableEq α] (k : α) : List (α × β) → Option β
  | [] => none
  | (k', v) :: rest => if k' = k then some v else alookup k rest

/-- Python `dict` assignment `d[k] = v`: replace the value in place if the key
exists (keeping its original position), otherwise append the new binding. -/
def upsert {α β : Type} [DecidableEq α] (k : α) (v : β) : List (α × β) → List (α × β)
  | [] => [(k, v)]
  | (k', v') :: rest => if k' = k then (k', v) :: rest else (k', v') :: upsert k v rest

/-! ## Date validation (`BalticTransparencyClient.__init__`)

`datetime.strptime(s, "%Y-%m-%d")` in CPython matches the regular expression
`\d\d\d\d` for `%Y`, `1[0-2]|0[1-9]|[1-9]` for `%m` and
`3[01]|[12]\d|0[1-9]|[1-9]` for `%d` against the whole string, then builds a
`datetime`, which additionally checks `1 <= year` and that the day exists in
the given month (leap years included).  Note that one-digit months and days
are accepted by this format. -/

/-- Numeric value of an ASCII digit character. -/
def digitVal (c : Char) : Option Nat :=
  if c.isDigit then some (c.toNat - 48) else none

/-- Split a character list at every `'-'` (the literal separators of the
`%Y-%m-%d` format), keeping empty pieces, like Python `s.split('-')`. -/
def splitOnDash : List Char → List (List Char)
  | [] => [[]]
  | c :: rest =>
      let r := splitOnDash rest
      if c = '-' then [] :: r
      else
        match r with
        | [] => [[c]]
        | g :: gs => (c :: g) :: gs

/-- The `%Y` token: exactly four digits. -/
def yearTok (s : List Char) : Option Nat :=
  match s with
  | [a, b, c, d] => do
      pure ((((← digitVal a) * 10 + (← digitVal b)) * 10 + (← digitVal c)) * 10
        + (← digitVal d))
  | _ => none

/-- The `%m` token: `1[0-2]|0[1-9]|[1-9]` — one or two digits, value 1..12. -/
def monthTok (s : List Char) : Option Nat :=
  match s with
  | [c] => if '1' ≤ c ∧ c ≤ '9' then some (c.toNat - 48) else none
  | [c1, c2] =>
      if c1 = '1' ∧ '0' ≤ c2 ∧ c2 ≤ '2' then some (10 + (c2.toNat - 48))
      else if c1 = '0' ∧ '1' ≤ c2 ∧ c2 ≤ '9' then some (c2.toNat - 48)
      else none
  | _ => none

/-- The `%d` token: `3[01]|[12]\d|0[1-9]|[1-9]` — one or two digits, 1..31. -/
def dayTok (s : List Char) : Option Nat :=
  match s with
  | [c] => if '1' ≤ c ∧ c ≤ '9' then some (c.toNat - 48) else none
  | [c1, c2] =>
      if c1 = '3' ∧ ('0' ≤ c2 ∧ c2 ≤ '1') then some (30 + (c2.toNat - 48))
      else if ('1' ≤ c1 ∧ c1 ≤ '2') ∧ c2.isDigit then
        some ((c1.toNat - 48) * 10 + (c2.toNat - 48))
      else if c1 = '0' ∧ '1' ≤ c2 ∧ c2 ≤ '9' then some (c2.toNat - 48)
      else none
  | _ => none

/-- Gregorian leap-year rule, as used by `datetime`. -/
def isLeap (y : Nat) : Bool :=
  (y % 4 == 0 && y % 100 != 0) || y % 400 == 0

/-- Number of days in a month (`m` is 1..12 whenever it comes from
`monthTok`). -/
def daysInMonth (y m : Nat) : Nat :=
  if m = 2 then (if isLeap y then 29 else 28)
  else if m = 4 ∨ m = 6 ∨ m = 9 ∨ m = 11 then 30
  else 31

/-- Whether `datetime.strptime(s, "%Y-%m-%d")` succeeds: the string splits
into exactly three `-`-separated parts matching the `%Y`, `%m`, `%d` token
languages, and the resulting (year, month, day) is a valid calendar date with
`year >= 1`. -/
def strptime_Y_m_d (s : String) : Bool :=
  match splitOnDash s.toList with
  | [ys, ms, ds] =>
      match yearTok ys, monthTok ms, dayTok ds with
      | some y, some m, some d => 1 ≤ y && 1 ≤ d && d ≤ daysInMonth y m
      | _, _, _ => false
  | _ => false

/-- Spec-side definition ("strict `YYYY-MM-DD` calendar-date format"): exactly
four digits, a dash, exactly two digits, a dash, exactly two digits, with the
month in 01..12 and the (zero-padded) day valid for that month and year. -/
def strictYMD (s : String) : Bool :=
  match splitOnDash s.toList with
  | [ys, ms, ds] =>
      (ys.length == 4 && ys.all Char.isDigit) &&
      (ms.length == 2 && ms.all Char.isDigit) &&
      (ds.length == 2 && ds.all Char.isDigit) &&
      (match yearTok ys, monthTok ms, dayTok ds with
       | some y, some m, some d => 1 ≤ y && 1 ≤ m && m ≤ 12 && 1 ≤ d && d ≤ daysInMonth y m
       | _, _, _ => false)
  | _ => false

/-- The client state after `__init__`: both date strings validated and
extended with the fixed `'T00:00'` time-of-day suffix. -/
structure BalticTransparencyClient where
  start_date : String
  end_date : String
deriving DecidableEq, Repr

/-- `BalticTransparencyClient.__init__`: validate both inputs with
`datetime.strptime(_, "%Y-%m-%d")`, raising `ValueError` when either fails,
then store the suffixed date-times.  No network activity takes place. -/
def init (start_date end_date : String) : Except String BalticTransparencyClient :=
  if strptime_Y_m_d start_date && strptime_Y_m_d end_date then
    .ok ⟨start_date ++ "T00:00", end_date ++ "T00:00"⟩
  else
    .error "Dates must be in format 'YYYY-MM-DD'"

end BTD


namespace BTD

/-! ## Request builder (`_get_data`) -/

/-- An HTTP response as seen through `requests.get`. -/
structure HttpResponse where
  status_code : Nat
  text : String
deriving DecidableEq, Repr

/-- `_get_data`, given the response the server produced for the request: on
status 200 return the body as unparsed text, otherwise raise `TimeoutError`
carrying the status code.  There is a single attempt, no retry. -/
def get_data (response : HttpResponse) : Except String String :=
  if response.status_code == 200 then
    .ok response.text
  else
    .error ("Could not retrieve data. API status code " ++ toString response.status_code)

/-- A run of `_get_data` against a server modelled as a stream of responses
(`server n` is the response to the `n`-th request made): the method issues
exactly one request and returns `get_data` of that single response.  The
second component counts the requests issued. -/
def get_data_run (server : Nat → HttpResponse) : Except String String × Nat :=
  (get_data (server 0), 1)

/-! ## Civil calendar and the `Europe/Vilnius` timezone

`pd.to_datetime` interprets each `from` string as an absolute instant; we
model instants directly as seconds since the Unix epoch.
`tz_convert('Europe/Vilnius')` then renders the instant in Lithuanian civil
time: UTC+2 (EET), or UTC+3 (EEST) between the last Sunday of March, 01:00
UTC, and the last Sunday of October, 01:00 UTC (the EU daylight-saving rule,
in force in Lithuania from 2003 on, which covers every date the dashboard
serves).  `tz_localize(None)` drops the offset, leaving the naive local
timestamp. -/

/-- Days since 1970-01-01 of the civil date `y-m-d` (proleptic Gregorian). -/
def daysFromCivil (y m d : Int) : Int :=
  let y' := if m ≤ 2 then y - 1 else y
  let era := Int.ediv y' 400
  let yoe := y' - era * 400
  let mp := Int.emod (m + 9) 12
  let doy := Int.ediv (153 * mp + 2) 5 + d - 1
  let doe := yoe * 365 + Int.ediv yoe 4 - Int.ediv yoe 100 + doy
  era * 146097 + doe - 719468

/-- Civil date `(y, m, d)` of a count of days since 1970-01-01. -/
def civilFromDays (z : Int) : Int × Int × Int :=
  let z' := z + 719468
  let era := Int.ediv z' 146097
  let doe := z' - era * 146097
  let yoe := Int.ediv (doe - Int.ediv doe 1460 + Int.ediv doe 36524 - Int.ediv doe 146096) 365
  let y := yoe + era * 400
  let doy := doe - (365 * yoe + Int.ediv yoe 4 - Int.ediv yoe 100)
  let mp := Int.ediv (5 * doy + 2) 153
  let d := doy - Int.ediv (153 * mp + 2) 5 + 1
  let m := mp + (if mp < 10 then 3 else -9)
  (if m ≤ 2 then y + 1 else y, m, d)

/-- The UTC calendar year an instant falls in. -/
def yearOf (t : Int) : Int :=
  (civilFromDays (Int.ediv t 86400)).1

/-- Instant (epoch seconds) of the last Sunday of the given 31-day month of
the given year, at 01:00 UTC.  1970-01-01 was a Thursday, so day `n` since
the epoch has weekday `(n + 4) % 7` with Sunday = 0. -/
def lastSundayAt0100 (y month : Int) : Int :=
  let d31 := daysFromCivil y month 31
  (d31 - Int.emod (d31 + 4) 7) * 86400 + 3600

/-- Whether Lithuanian summer time (EEST, UTC+3) is in force at an instant. -/
def vilniusIsDST (t : Int) : Bool :=
  let y := yearOf t
  lastSundayAt0100 y 3 ≤ t && t < lastSundayAt0100 y 10

/-- UTC offset (seconds) of `Europe/Vilnius` at an instant. -/
def vilniusOffset (t : Int) : Int :=
  if vilniusIsDST t then 3 * 3600 else 2 * 3600

/-- `tz_convert('Europe/Vilnius')` followed by `tz_localize(None)`: the naive
local timestamp (as epoch-style seconds) of an absolute instant. -/
def vilniusNaive (t : Int) : Int :=
  t + vilniusOffset t

end BTD


namespace BTD

/-! ## Response unraveler (`_unravel_response`) -/

/-- Access a dictionary key that may be absent: `col['group_level_0']` etc.
An absent key raises `KeyError`. -/
def need (o : Option String) (key : String) : Except String String :=
  match o with
  | some v => .ok v
  | none => .error ("KeyError: " ++ key)

/-- The display name of one column descriptor at the given grouping depth,
following the `if levels == 3 / elif levels == 2 / else` chain of the source
(any depth other than 3 and 2 behaves like 1). -/
def displayName (levels : Nat) (col : ColumnInfo) : Except String String :=
  if levels == 3 then do
    let g0 ← need col.group_level_0 "group_level_0"
    let g1 ← need col.group_level_1 "group_level_1"
    let lab ← need col.label "label"
    pure (g0 ++ " " ++ g1 ++ " " ++ lab)
  else if levels == 2 then do
    let g0 ← need col.group_level_0 "group_level_0"
    let lab ← need col.label "label"
    pure (g0 ++ " " ++ lab)
  else
    need col.group_level_0 "group_level_0"

/-- The `columns_map` dict comprehension: index → display name, built in
descriptor order (a repeated index overwrites, like a Python dict). -/
def columnsMap (levels : Nat) : List ColumnInfo → List (Nat × String) → Except String (List (Nat × String))
  | [], acc => .ok acc
  | col :: rest, acc =>
      match displayName levels col with
      | .error e => .error e
      | .ok name => columnsMap levels rest (upsert col.index name acc)

/-- A cell of a row record: the `datetime` field holds a timestamp, every
other field holds a response value. -/
inductive Cell where
  | time (t : Int)
  | val (v : JVal)
deriving DecidableEq, Repr

/-- The `for idx, value in enumerate(entry['values'])` loop: starting from
position `idx`, write each value whose index is in `columns_map` into the
record (dict assignment; unmapped indices are skipped). -/
def addValues (cmap : List (Nat × String)) : Nat → List JVal → List (String × Cell) → List (String × Cell)
  | _, [], r => r
  | idx, v :: vs, r =>
      addValues cmap (idx + 1) vs
        (match alookup idx cmap with
         | some name => upsert name (Cell.val v) r
         | none => r)

/-- One row record: `{'datetime': entry['from']}` followed by the values
loop. -/
def buildRecord (cmap : List (Nat × String)) (e : TimeseriesEntry) : List (String × Cell) :=
  addValues cmap 0 e.values [("datetime", Cell.time e.fromTime)]

/-- Accumulate the keys of one record into a first-seen-order key list. -/
def addKeys (acc : List String) (r : List (String × Cell)) : List String :=
  r.foldl (fun a kv => if a.contains kv.1 then a else a ++ [kv.1]) acc

/-- Column order of `pd.DataFrame(data_records)`: union of the record keys in
order of first appearance. -/
def keysUnion (records : List (List (String × Cell))) : List String :=
  records.foldl addKeys []

/-- The `pd.to_datetime(df['datetime']).dt.tz_convert('Europe/Vilnius')
.dt.tz_localize(None)` column: each record's `datetime` cell must still hold
the timestamp written first (a response column named `datetime` would have
overwritten it with a plain value, which does not convert). -/
def extractIndex : List (List (String × Cell)) → Except String (List Int)
  | [] => .ok []
  | r :: rs =>
      match alookup "datetime" r with
      | some (Cell.time t) =>
          match extractIndex rs with
          | .ok rest => .ok (vilniusNaive t :: rest)
          | .error e => .error e
      | _ => .error "to_datetime: invalid datetime value"

/-- The value a `DataFrame` cell gets from a record: the record's value if the
key is present, `NaN` otherwise. -/
def cellValue (c : Option Cell) : JVal :=
  match c with
  | some (Cell.val v) => v
  | _ => JVal.null

/-- The time-indexed table `_unravel_response` returns: the data-column
display names in `DataFrame` order, the converted `datetime` index, and one
value row per record, aligned to the columns. -/
structure ResultTable where
  cols : List String
  index : List Int
  rows : List (List JVal)
deriving DecidableEq, Repr

/-- `_unravel_response` on a parsed response: build `columns_map` (raising
`KeyError` on a descriptor missing a needed key), build one record per
timeseries entry in response order, form the `DataFrame`, convert the
`datetime` column to naive Vilnius time and make it the index.  An empty
record list yields a frame with no columns, so `df['datetime']` raises
`KeyError`. -/
def unravel (resp : ResponseData) (levels : Nat) : Except String ResultTable :=
  match columnsMap levels resp.columns [] with
  | .error e => .error e
  | .ok cmap =>
      let records := resp.timeseries.map (buildRecord cmap)
      let allCols := keysUnion records
      if allCols.contains "datetime" then
        match extractIndex records with
        | .error e => .error e
        | .ok idx =>
            let dataCols := allCols.filter (fun c => !(c == "datetime"))
            .ok ⟨dataCols, idx,
                 records.map (fun r => dataCols.map (fun c => cellValue (alookup c r)))⟩
      else
        .error "KeyError: 'datetime'"

end BTD


namespace BTD

/-! ## Post-processing (`total_satisfied_demand_for_balancing_purposes_mod_df`) -/

/-- Python `"Downward" in col`: substring containment on character lists. -/
def isSubChars (pat : List Char) : List Char → Bool
  | [] => pat.isEmpty
  | c :: rest => pat.isPrefixOf (c :: rest) || isSubChars pat rest

/-- Whether a display name contains the substring `"Downward"`. -/
def hasDownward (col : String) : Bool :=
  isSubChars "Downward".toList col.toList

/-- `pd.to_numeric(errors='coerce')` on one cell: numbers stay, a non-numeric
cell or null becomes missing. -/
def toNumeric : JVal → JVal
  | .num q => .num q
  | _ => .null

/-- Multiplication of a cell by an integer scalar (`* -1`, `*= 4`): NaN stays
NaN. -/
def scaleCell (a : Int) : JVal → JVal
  | .num q => .num (a * q)
  | v => v

/-- Whether a cell counts as missing for `dropna` (NaN; a string cell is not
missing). -/
def isNA : JVal → Bool
  | .null => true
  | _ => false

/-- `df.sum(axis=1)` on one row: NaN cells are skipped (`skipna=True`); a
non-numeric cell in the sum raises `TypeError`. -/
def rowSum : List JVal → Except String ℚ
  | [] => .ok 0
  | .num q :: rest =>
      match rowSum rest with
      | .ok s => .ok (q + s)
      | .error e => .error e
  | .null :: rest => rowSum rest
  | .str _ :: _ => .error "TypeError: cannot sum non-numeric value"

/-- The four post-processing statements of
`total_satisfied_demand_for_balancing_purposes_mod_df`, applied to the
level-2 unraveled table:
`df[downward_columns] = df[downward_columns].apply(pd.to_numeric, errors='coerce') * -1`,
`df = df.dropna()`, `df['Baltics_net'] = df.sum(axis=1)`, `df *= 4`. -/
def mod_post (t : ResultTable) : Except String ResultTable :=
  let isDown := t.cols.map hasDownward
  let rows1 := t.rows.map (fun r =>
    List.zipWith (fun down v => if down then scaleCell (-1) (toNumeric v) else v) isDown r)
  let kept := (t.index.zip rows1).filter (fun p => !(p.2.any isNA))
  let index2 := kept.map Prod.fst
  let rows2 := kept.map Prod.snd
  match rows2.mapM rowSum with
  | .error e => .error e
  | .ok sums =>
      .ok ⟨t.cols ++ ["Baltics_net"], index2,
           (rows2.zip sums).map (fun p => p.1.map (scaleCell 4) ++ [JVal.num (4 * p.2)])⟩

/-! Spec-side formulation of the same transform, step by step in the spec's
own order: negate (after numeric coercion) every column whose display name
contains "Downward"; drop every row containing any missing value; append a
column `Baltics_net` holding the row-wise sum across all existing columns;
multiply every cell, `Baltics_net` included, by 4. -/

/-- Spec step 1–2: coerce the "Downward" columns to numeric and negate them. -/
def specNegateDownward (t : ResultTable) : ResultTable :=
  ⟨t.cols, t.index,
   t.rows.map (fun r =>
     List.zipWith (fun down v => if down then scaleCell (-1) (toNumeric v) else v)
       (t.cols.map hasDownward) r)⟩

/-- Spec step 3: drop every row containing any missing value. -/
def specDropMissing (t : ResultTable) : ResultTable :=
  let kept := (t.index.zip t.rows).filter (fun p => !(p.2.any isNA))
  ⟨t.cols, kept.map Prod.fst, kept.map Prod.snd⟩

/-- Spec step 4: append a `Baltics_net` column equal to the row-wise sum
across all existing columns. -/
def specAddBalticsNet (t : ResultTable) : Except String ResultTable :=
  match t.rows.mapM rowSum with
  | .error e => .error e
  | .ok sums =>
      .ok ⟨t.cols ++ ["Baltics_net"], t.index,
           (t.rows.zip sums).map (fun p => p.1 ++ [JVal.num p.2])⟩

/-- Spec step 5: multiply every cell of the table by 4. -/
def specScale4 (t : ResultTable) : ResultTable :=
  ⟨t.cols, t.index, t.rows.map (fun r => r.map (scaleCell 4))⟩

/-- The spec's pipeline: steps 1–5 in order. -/
def specModPipeline (t : ResultTable) : Except String ResultTable :=
  match specAddBalticsNet (specDropMissing (specNegateDownward t)) with
  | .error e => .error e
  | .ok t' => .ok (specScale4 t')

end BTD


namespace BTD

/-! ## Per-series façade methods

Each public method sends one request with its fixed series id and unravels
the body at its fixed grouping depth.  The environment is abstracted by two
parameters: `server`, giving the `requests.get` response for a series id, and
`loads`, the JSON layer (`json.loads` plus the `['data']` access) turning a
body string into a parsed `ResponseData` or a structural error. -/

/-- `_unravel_response` on the raw body string: parse the JSON, then unravel
the parsed data at the given depth. -/
def unravel_response (loads : String → Except String ResponseData)
    (response : String) (levels : Nat) : Except String ResultTable :=
  match loads response with
  | .error e => .error e
  | .ok data => unravel data levels

/-- The composition every façade method is specified to be: fetch the fixed
series id, unravel at the fixed depth. -/
def runSeries (loads : String → Except String ResponseData)
    (server : String → HttpResponse) (api_id : String) (levels : Nat) :
    Except String ResultTable :=
  match get_data (server api_id) with
  | .error e => .error e
  | .ok response => unravel_response loads response levels

def procured_balancing_reserve_prices_df (loads : String → Except String ResponseData)
    (server : String → HttpResponse) : Except String ResultTable :=
  match get_data (server "price_procured_reserves") with
  | .error e => .error e
  | .ok response => unravel_response loads response 3

def cbmp_df (loads : String → Except String ResponseData)
    (server : String → HttpResponse) : Except String ResultTable :=
  match get_data (server "cross_border_marginal_price") with
  | .error e => .error e
  | .ok response => unravel_response loads response 3

def imbalance_volumes_df (loads : String → Except String ResponseData)
    (server : String → HttpResponse) : Except String ResultTable :=
  match get_data (server "imbalance_volumes_v2") with
  | .error e => .error e
  | .ok response => unravel_response loads response 1

def activated_afrr_volumes_df (loads : String → Except String ResponseData)
    (server : String → HttpResponse) : Except String ResultTable :=
  match get_data (server "activations_afrr") with
  | .error e => .error e
  | .ok response => unravel_response loads response 2

def balancing_energy_ref_prices_df (loads : String → Except String ResponseData)
    (server : String → HttpResponse) : Except String ResultTable :=
  match get_data (server "balancing_energy_prices") with
  | .error e => .error e
  | .ok response => unravel_response loads response 2

def current_balancing_state_df (loads : String → Except String ResponseData)
    (server : String → HttpResponse) : Except String ResultTable :=
  match get_data (server "current_balancing_state_v2") with
  | .error e => .error e
  | .ok response => unravel_response loads response 1

def direction_of_system_balancing_df (loads : String → Except String ResponseData)
    (server : String → HttpResponse) : Except String ResultTable :=
  match get_data (server "direction_of_balancing_v2") with
  | .error e => .error e
  | .ok response => unravel_response loads response 1

def imbalance_prices_df (loads : String → Except String ResponseData)
    (server : String → HttpResponse) : Except String ResultTable :=
  match get_data (server "imbalance_prices") with
  | .error e => .error e
  | .ok response => unravel_response loads response 1

def local_marginal_prices_df (loads : String → Except String ResponseData)
    (server : String → HttpResponse) : Except String ResultTable :=
  match get_data (server "local_marginal_price") with
  | .error e => .error e
  | .ok response => unravel_response loads response 2

def local_marginal_afrr_prices_df (loads : String → Except String ResponseData)
    (server : String → HttpResponse) : Except String ResultTable :=
  match get_data (server "local_marginal_price_afrr") with
  | .error e => .error e
  | .ok response => unravel_response loads response 2

def normal_activations_da_volumes_df (loads : String → Except String ResponseData)
    (server : String → HttpResponse) : Except String ResultTable :=
  match get_data (server "normal_activations_da_mfrr") with
  | .error e => .error e
  | .ok response => unravel_response loads response 2

def normal_activations_sa_volumes_df (loads : String → Except String ResponseData)
    (server : String → HttpResponse) : Except String ResultTable :=
  match get_data (server "normal_activations_sa_mfrr") with
  | .error e => .error e
  | .ok response => unravel_response loads response 2

def normal_activations_total_volumes_df (loads : String → Except String ResponseData)
    (server : String → HttpResponse) : Except String ResultTable :=
  match get_data (server "normal_activations_total") with
  | .error e => .error e
  | .ok response => unravel_response loads response 2

def total_satisfied_demand_for_balancing_purposes_df (loads : String → Except String ResponseData)
    (server : String → HttpResponse) : Except String ResultTable :=
  match get_data (server "total_satisfied_demand_for_balancing_purposes") with
  | .error e => .error e
  | .ok response => unravel_response loads response 2

/-- The post-processed variant: the plain level-2 unravel of
`total_satisfied_demand_for_balancing_purposes` followed by the `mod_post`
transform. -/
def total_satisfied_demand_for_balancing_purposes_mod_df
    (loads : String → Except String ResponseData)
    (server : String → HttpResponse) : Except String ResultTable :=
  match get_data (server "total_satisfied_demand_for_balancing_purposes") with
  | .error e => .error e
  | .ok response =>
      match unravel_response loads response 2 with
      | .error e => .error e
      | .ok df => mod_post df

end BTD

namespace BTD

/-- The value the `enumerate` loop, started at position `idx`, leaves under
display name `k`: the value at the highest position whose index maps to `k`
in `columns_map` (`none` when no position maps to `k`). -/
def lastWriteFrom (cmap : List (Nat × String)) : Nat → List JVal → String → Option JVal
  | _, [], _ => none
  | idx, v :: vs, k =>
      match lastWriteFrom cmap (idx + 1) vs k with
      | some w => some w
      | none =>
          match alookup idx cmap with
          | some name => if name = k then some v else none
          | none => none

end BTD

deriving instance DecidableEq for Except

namespace BTD

/-! ## Helper lemmas -/

theorem alookup_upsert {α β : Type} [DecidableEq α] (k k' : α) (v : β)
    (l : List (α × β)) :
    alookup k (upsert k' v l) = if k' = k then some v else alookup k l := by
  induction l with
  | nil => simp [upsert, alookup]
  | cons hd tl ih =>
    obtain ⟨a, b⟩ := hd
    by_cases hak : a = k' <;> by_cases hk : k' = k <;>
      simp_all [upsert, alookup]

theorem alookup_mem_snd {α β : Type} [DecidableEq α] {k : α} {v : β}
    {l : List (α × β)} (h : alookup k l = some v) : v ∈ l.map Prod.snd := by
  induction l with
  | nil => simp [alookup] at h
  | cons hd tl ih =>
    obtain ⟨a, b⟩ := hd
    by_cases hak : a = k <;> simp_all [alookup]

theorem mem_fst_upsert {α β : Type} [DecidableEq α] {k k' : α} {v : β}
    {l : List (α × β)} (h : k ∈ (upsert k' v l).map Prod.fst) :
    k = k' ∨ k ∈ l.map Prod.fst := by
  induction l with
  | nil =>
    simp [upsert] at h
    exact Or.inl h
  | cons hd tl ih =>
    obtain ⟨a, b⟩ := hd
    by_cases hak : a = k'
    · simp only [upsert, if_pos hak, List.map_cons, List.mem_cons] at h
      rcases h with h | h
      · exact Or.inl (h.trans hak)
      · exact Or.inr (List.mem_cons.mpr (Or.inr h))
    · simp only [upsert, if_neg hak, List.map_cons, List.mem_cons] at h
      rcases h with h | h
      · exact Or.inr (List.mem_cons.mpr (Or.inl h))
      · rcases ih h with h' | h'
        · exact Or.inl h'
        · exact Or.inr (List.mem_cons.mpr (Or.inr h'))

theorem mem_snd_upsert {α β : Type} [DecidableEq α] {c : β} {k : α} {v : β}
    {l : List (α × β)} (h : c ∈ (upsert k v l).map Prod.snd) :
    c = v ∨ c ∈ l.map Prod.snd := by
  induction l with
  | nil =>
    simp [upsert] at h
    exact Or.inl h
  | cons hd tl ih =>
    obtain ⟨a, b⟩ := hd
    by_cases hak : a = k
    · simp only [upsert, if_pos hak, List.map_cons, List.mem_cons] at h
      rcases h with h | h
      · exact Or.inl h
      · exact Or.inr (List.mem_cons.mpr (Or.inr h))
    · simp only [upsert, if_neg hak, List.map_cons, List.mem_cons] at h
      rcases h with h | h
      · exact Or.inr (List.mem_cons.mpr (Or.inl h))
      · rcases ih h with h' | h'
        · exact Or.inl h'
        · exact Or.inr (List.mem_cons.mpr (Or.inr h'))

theorem mem_fst_addValues {cmap : List (Nat × String)} {k : String}
    (idx : Nat) (vs : List JVal) (r : List (String × Cell))
    (h : k ∈ (addValues cmap idx vs r).map Prod.fst) :
    k ∈ r.map Prod.fst ∨ k ∈ cmap.map Prod.snd := by
  induction vs generalizing idx r with
  | nil => simp_all [addValues]
  | cons v vs ih =>
    rw [addValues] at h
    rcases hm : alookup idx cmap with _ | name
    · rw [hm] at h
      exact ih _ _ h
    · rw [hm] at h
      rcases ih _ _ h with h' | h'
      · rcases mem_fst_upsert h' with h'' | h''
        · exact Or.inr (h'' ▸ alookup_mem_snd hm)
        · exact Or.inl h''
      · exact Or.inr h'

theorem addValues_alookup (cmap : List (Nat × String)) (k : String)
    (vs : List JVal) (idx : Nat) (r : List (String × Cell)) :
    alookup k (addValues cmap idx vs r) =
      match lastWriteFrom cmap idx vs k with
      | some v => some (Cell.val v)
      | none => alookup k r := by
  induction vs generalizing idx r with
  | nil => simp [addValues, lastWriteFrom]
  | cons v vs ih =>
    rw [addValues, ih, lastWriteFrom]
    rcases hlw : lastWriteFrom cmap (idx + 1) vs k with _ | w
    · rcases hm : alookup idx cmap with _ | name
      · simp
      · by_cases hk : name = k
        · simp [hk, alookup_upsert]
        · simp [hk, alookup_upsert]
    · simp

theorem buildRecord_datetime (cmap : List (Nat × String)) (e : TimeseriesEntry)
    (t : Int) (h : alookup "datetime" (buildRecord cmap e) = some (Cell.time t)) :
    t = e.fromTime := by
  rw [buildRecord, addValues_alookup] at h
  rcases hlw : lastWriteFrom cmap 0 e.values "datetime" with _ | w
  · rw [hlw] at h
    simp [alookup] at h
    exact h.symm
  · rw [hlw] at h
    simp at h

theorem extractIndex_ok (cmap : List (Nat × String)) (ts : List TimeseriesEntry)
    (idx : List Int) (h : extractIndex (ts.map (buildRecord cmap)) = .ok idx) :
    idx = ts.map (fun e => vilniusNaive e.fromTime) := by
  induction ts generalizing idx with
  | nil =>
    simp [extractIndex] at h
    simp [h.symm]
  | cons e ts ih =>
    rw [List.map_cons, extractIndex] at h
    rcases hd : alookup "datetime" (buildRecord cmap e) with _ | c
    · rw [hd] at h
      simp at h
    · rw [hd] at h
      rcases c with t | v
      · rcases hrest : extractIndex (ts.map (buildRecord cmap)) with er | rest
        · rw [hrest] at h
          simp at h
        · rw [hrest] at h
          simp at h
          rw [List.map_cons, ← h]
          rw [buildRecord_datetime cmap e t hd, ih rest hrest]
      · simp at h

theorem mem_addKeys {c : String} (r : List (String × Cell)) (acc : List String)
    (h : c ∈ addKeys acc r) : c ∈ acc ∨ c ∈ r.map Prod.fst := by
  induction r generalizing acc with
  | nil => simp_all [addKeys]
  | cons kv rest ih =>
    rw [addKeys, List.foldl_cons] at h
    have h' := ih _ h
    by_cases hc : acc.contains kv.1
    · rw [if_pos hc] at h'
      rcases h' with h' | h'
      · exact Or.inl h'
      · exact Or.inr (List.mem_cons.mpr (Or.inr h'))
    · rw [if_neg hc] at h'
      rcases h' with h' | h'
      · rcases List.mem_append.mp h' with h'' | h''
        · exact Or.inl h''
        · simp at h''
          exact Or.inr (List.mem_cons.mpr (Or.inl h''))
      · exact Or.inr (List.mem_cons.mpr (Or.inr h'))

theorem mem_keysUnion {c : String} (records : List (List (String × Cell)))
    (h : c ∈ keysUnion records) : ∃ r ∈ records, c ∈ r.map Prod.fst := by
  rw [keysUnion] at h
  suffices H : ∀ (acc : List String), c ∈ records.foldl addKeys acc →
      c ∈ acc ∨ ∃ r ∈ records, c ∈ r.map Prod.fst by
    rcases H [] h with h' | h'
    · simp at h'
    · exact h'
  clear h
  induction records with
  | nil => intro acc h; simp at h; exact Or.inl h
  | cons r rs ih =>
    intro acc h
    rw [List.foldl_cons] at h
    rcases ih _ h with h' | h'
    · rcases mem_addKeys r acc h' with h'' | h''
      · exact Or.inl h''
      · exact Or.inr ⟨r, List.mem_cons_self _ _, h''⟩
    · rcases h' with ⟨r', hr', hc⟩
      exact Or.inr ⟨r', List.mem_cons.mpr (Or.inr hr'), hc⟩

theorem columnsMap_snd_sub (levels : Nat) (cols : List ColumnInfo)
    (acc cmap : List (Nat × String)) (h : columnsMap levels cols acc = .ok cmap)
    {c : String} (hc : c ∈ cmap.map Prod.snd) :
    c ∈ acc.map Prod.snd ∨ ∃ col ∈ cols, displayName levels col = .ok c := by
  induction cols generalizing acc with
  | nil =>
    simp [columnsMap] at h
    exact Or.inl (h ▸ hc)
  | cons col rest ih =>
    rw [columnsMap] at h
    rcases hd : displayName levels col with e | name
    · rw [hd] at h
      simp at h
    · rw [hd] at h
      rcases ih _ h with h' | h'
      · rcases mem_snd_upsert h' with h'' | h''
        · exact Or.inr ⟨col, List.mem_cons_self _ _, h'' ▸ hd⟩
        · exact Or.inl h''
      · rcases h' with ⟨col', hcol', hname⟩
        exact Or.inr ⟨col', List.mem_cons.mpr (Or.inr hcol'), hname⟩

theorem columnsMap_error_of_bad (levels : Nat) (cols : List ColumnInfo)
    (acc : List (Nat × String)) (col : ColumnInfo) (hmem : col ∈ cols)
    (hbad : (displayName levels col).isOk = false) :
    (columnsMap levels cols acc).isOk = false := by
  induction cols generalizing acc with
  | nil => simp at hmem
  | cons hd rest ih =>
    rw [columnsMap]
    rcases hdn : displayName levels hd with e | name
    · simp [Except.isOk, Except.toBool]
    · rcases List.mem_cons.mp hmem with h | h
      · rw [h, hdn] at hbad
        simp [Except.isOk, Except.toBool] at hbad
      · exact ih _ h

theorem unravel_ok_parts (resp : ResponseData) (levels : Nat) (t : ResultTable)
    (h : unravel resp levels = .ok t) :
    ∃ cmap, columnsMap levels resp.columns [] = .ok cmap ∧
      t.index = resp.timeseries.map (fun e => vilniusNaive e.fromTime) ∧
      t.rows.length = resp.timeseries.length ∧
      t.cols = (keysUnion (resp.timeseries.map (buildRecord cmap))).filter
        (fun c => !(c == "datetime")) ∧
      ∀ row ∈ t.rows, row.length = t.cols.length := by
  rw [unravel] at h
  rcases hcm : columnsMap levels resp.columns [] with e | cmap
  · rw [hcm] at h
    simp at h
  · rw [hcm] at h
    simp only at h
    by_cases hdt : (keysUnion (resp.timeseries.map (buildRecord cmap))).contains "datetime"
    · rw [if_pos hdt] at h
      rcases hidx : extractIndex (resp.timeseries.map (buildRecord cmap)) with e | idx
      · rw [hidx] at h
        simp at h
      · rw [hidx] at h
        simp at h
        refine ⟨cmap, rfl, ?_, ?_, ?_, ?_⟩
        · rw [← h, extractIndex_ok cmap resp.timeseries idx hidx]
        · rw [← h]
          simp
        · rw [← h]
        · rw [← h]
          intro row hrow
          simp at hrow
          rcases hrow with ⟨r, _, hr⟩
          rw [← hr]
          simp
    · rw [if_neg hdt] at h
      simp at h

theorem isPrefixOf_self (l : List Char) : l.isPrefixOf l = true := by
  induction l with
  | nil => rfl
  | cons c rest ih => simp [List.isPrefixOf, ih]

theorem isSubChars_append_self (xs pat : List Char) :
    isSubChars pat (xs ++ pat) = true := by
  induction xs with
  | nil =>
    rcases pat with _ | ⟨c, rest⟩
    · rfl
    · rw [List.nil_append, isSubChars, isPrefixOf_self]
      rfl
  | cons x xs ih =>
    rw [List.cons_append, isSubChars, ih]
    simp

/-! ## Claim theorems -/

/-- C2 counterexample: the claim says construction succeeds if and only if
both strings match the strict "YYYY-MM-DD" calendar-date format, but
`datetime.strptime` with format `%Y-%m-%d` also accepts one-digit months and
days: `BalticTransparencyClient("2024-1-15", "2024-01-15")` succeeds even
though "2024-1-15" is not of the strict shape. -/
theorem C2_strict_iff_counterexample :
    (init "2024-1-15" "2024-01-15").isOk = true ∧ strictYMD "2024-1-15" = false := by
  constructor <;> decide

/-- C2 (amended): construction succeeds exactly when both argument strings
parse under Python's `%Y-%m-%d` rule — a four-digit year at least 1, a one-
or two-digit month in 1..12, and a one- or two-digit day valid for that month
and year — and fails with a format error otherwise, before any network
activity; in particular "2024-01-15" and also "2024-1-15" succeed while
"2024-13-01" and "2024-02-30" fail. -/
theorem C2_init_accepts_strptime_dates :
    (∀ start_date end_date : String,
      (init start_date end_date).isOk =
        (strptime_Y_m_d start_date && strptime_Y_m_d end_date)) ∧
    strptime_Y_m_d "2024-01-15" = true ∧
    strptime_Y_m_d "2024-1-15" = true ∧
    strptime_Y_m_d "2024-13-01" = false ∧
    strptime_Y_m_d "2024-02-30" = false ∧
    strptime_Y_m_d "2024-02-29" = true ∧
    strptime_Y_m_d "2023-02-29" = false := by
  refine ⟨fun s e => ?_, by decide, by decide, by decide, by decide, by decide, by decide⟩
  rw [init]
  by_cases h : (strptime_Y_m_d s && strptime_Y_m_d e) = true
  · simp [h, Except.isOk, Except.toBool]
  · simp only [Bool.not_eq_true] at h
    simp [h, Except.isOk, Except.toBool]

/-- C3: for every HTTP response, `_get_data` returns the body as unparsed
text when the status is 200, and for every non-200 status it raises a
transport error whose message carries the status code; the run model makes a
single attempt (exactly one request) and produces no table on failure. -/
theorem C3_get_data_status (r : HttpResponse) :
    (r.status_code = 200 → get_data r = .ok r.text) ∧
    (r.status_code ≠ 200 →
      get_data r = .error ("Could not retrieve data. API status code "
        ++ toString r.status_code) ∧
      isSubChars (toString r.status_code).toList
        ("Could not retrieve data. API status code "
          ++ toString r.status_code).toList = true) ∧
    (∀ server : Nat → HttpResponse,
      (get_data_run server).2 = 1 ∧ (get_data_run server).1 = get_data (server 0)) := by
  refine ⟨fun h => ?_, fun h => ⟨?_, ?_⟩, fun server => ⟨rfl, rfl⟩⟩
  · simp [get_data, h]
  · simp [get_data, h]
  · exact isSubChars_append_self
      "Could not retrieve data. API status code ".toList (toString r.status_code).toList

/-- C3 witness: the theorem applied to a 200 response and a 500 response. -/
theorem C3_get_data_status_witness :
    get_data ⟨200, "body"⟩ = .ok "body" ∧
    get_data ⟨500, "oops"⟩ = .error "Could not retrieve data. API status code 500" := by
  exact ⟨(C3_get_data_status ⟨200, "body"⟩).1 rfl,
    ((C3_get_data_status ⟨500, "oops"⟩).2.1 (by decide)).1⟩

/-- C4: a column descriptor with `group_level_0 = A`, `group_level_1 = B`,
`label = C` gets display name "A B C" at grouping depth 3, "A C" at depth 2
and "A" at depth 1, for all values of the labels. -/
theorem C4_display_name_depths (i : Nat) (A B C : String) :
    displayName 3 ⟨i, some A, some B, some C⟩ = .ok (A ++ " " ++ B ++ " " ++ C) ∧
    displayName 2 ⟨i, some A, some B, some C⟩ = .ok (A ++ " " ++ C) ∧
    displayName 1 ⟨i, some A, some B, some C⟩ = .ok A := by
  refine ⟨rfl, rfl, rfl⟩

/-- C8: when the parsed response's `data.timeseries` is an empty list,
`_unravel_response` never returns a table: the record list is empty, the
resulting frame has no columns, and the `df['datetime']` access raises
`KeyError` — whatever the `data.columns` descriptors are. -/
theorem C8_empty_timeseries_errors (cols : List ColumnInfo) (levels : Nat) :
    (unravel ⟨cols, []⟩ levels).isOk = false := by
  rw [unravel]
  rcases hcm : columnsMap levels cols [] with e | cmap
  · simp [Except.isOk, Except.toBool]
  · simp [keysUnion, Except.isOk, Except.toBool]

/-- C10: at grouping depth 2 a column descriptor must carry both
`group_level_0` and `label`, and at depth 3 additionally `group_level_1`;
a descriptor missing a key required at the requested depth makes
`_unravel_response` raise `KeyError` instead of dropping that column. -/
theorem C10_missing_descriptor_keys :
    (∀ col : ColumnInfo, (displayName 2 col).isOk =
        (col.group_level_0.isSome && col.label.isSome)) ∧
    (∀ col : ColumnInfo, (displayName 3 col).isOk =
        (col.group_level_0.isSome && col.group_level_1.isSome && col.label.isSome)) ∧
    (∀ (levels : Nat) (cols : List ColumnInfo) (ts : List TimeseriesEntry)
        (col : ColumnInfo), col ∈ cols → (displayName levels col).isOk = false →
      (unravel ⟨cols, ts⟩ levels).isOk = false) := by
  refine ⟨fun col => ?_, fun col => ?_, fun levels cols ts col hmem hbad => ?_⟩
  · rcases col with ⟨i, g0, g1, lab⟩
    rcases g0 <;> rcases lab <;>
      simp [displayName, need, Except.isOk, Except.toBool, Bind.bind, Except.bind,
        Pure.pure, Except.pure]
  · rcases col with ⟨i, g0, g1, lab⟩
    rcases g0 <;> rcases g1 <;> rcases lab <;>
      simp [displayName, need, Except.isOk, Except.toBool, Bind.bind, Except.bind,
        Pure.pure, Except.pure]
  · have hcm := columnsMap_error_of_bad levels cols [] col hmem hbad
    rw [unravel]
    rcases h : columnsMap levels cols [] with e | cmap
    · simp [Except.isOk, Except.toBool]
    · rw [h] at hcm
      simp [Except.isOk, Except.toBool] at hcm

/-- C10 witness: a depth-2 descriptor with no `label` key makes the whole
unravel fail. -/
theorem C10_missing_descriptor_keys_witness :
    (unravel ⟨[⟨0, some "A", none, none⟩], [⟨0, [JVal.num 1]⟩]⟩ 2).isOk = false :=
  C10_missing_descriptor_keys.2.2 2 [⟨0, some "A", none, none⟩] [⟨0, [JVal.num 1]⟩]
    ⟨0, some "A", none, none⟩ (List.mem_singleton.mpr rfl) (by decide)

/-- C5: a positional value whose index has no matching column descriptor is
silently excluded from every output row — every output column comes from a
descriptor, every row is aligned to the output columns, and feeding an entry
with 3 values against only 2 descriptors yields exactly the 2 described data
columns with no error. -/
theorem C5_unmapped_values_excluded :
    (∀ (resp : ResponseData) (levels : Nat) (t : ResultTable),
      unravel resp levels = .ok t →
      (∀ c ∈ t.cols, ∃ col ∈ resp.columns, displayName levels col = .ok c) ∧
      ∀ row ∈ t.rows, row.length = t.cols.length) ∧
    unravel ⟨[⟨0, some "A", none, none⟩, ⟨1, some "B", none, none⟩],
             [⟨0, [JVal.num 1, JVal.num 2, JVal.num 3]⟩]⟩ 1 =
      .ok ⟨["A", "B"], [7200], [[JVal.num 1, JVal.num 2]]⟩ := by
  refine ⟨fun resp levels t h => ?_, by decide⟩
  obtain ⟨cmap, hcm, _, _, hcols, hrows⟩ := unravel_ok_parts resp levels t h
  refine ⟨fun c hc => ?_, hrows⟩
  rw [hcols] at hc
  obtain ⟨hmemU, hne⟩ := List.mem_filter.mp hc
  obtain ⟨r, hr, hkey⟩ := mem_keysUnion _ hmemU
  obtain ⟨e, _, hbuild⟩ := List.mem_map.mp hr
  rw [← hbuild, buildRecord] at hkey
  rcases mem_fst_addValues 0 e.values _ hkey with h1 | h1
  · simp at h1
    rw [h1] at hne
    simp at hne
  · rcases columnsMap_snd_sub levels resp.columns [] cmap hcm h1 with h2 | h2
    · simp at h2
    · exact h2

/-- C5 witness: the general part applied to the 3-values-2-descriptors
response. -/
theorem C5_unmapped_values_excluded_witness :
    (∀ c ∈ (⟨["A", "B"], [7200], [[JVal.num 1, JVal.num 2]]⟩ : ResultTable).cols,
      ∃ col ∈ [(⟨0, some "A", none, none⟩ : ColumnInfo), ⟨1, some "B", none, none⟩],
        displayName 1 col = .ok c) ∧
    ∀ row ∈ (⟨["A", "B"], [7200], [[JVal.num 1, JVal.num 2]]⟩ : ResultTable).rows,
      row.length = (⟨["A", "B"], [7200], [[JVal.num 1, JVal.num 2]]⟩ : ResultTable).cols.length :=
  C5_unmapped_values_excluded.1
    ⟨[⟨0, some "A", none, none⟩, ⟨1, some "B", none, none⟩],
     [⟨0, [JVal.num 1, JVal.num 2, JVal.num 3]⟩]⟩ 1
    ⟨["A", "B"], [7200], [[JVal.num 1, JVal.num 2]]⟩ (by decide)

/-- C6: unravel produces exactly one row per timeseries entry, in the
original response order, and each row's index is the entry's `from` instant
rendered in Europe/Vilnius local time with the offset stripped; the
conversion is DST-aware — 2024-03-30T22:00Z (before the spring transition)
gets offset +2h while 2024-06-01T00:00Z (summer) gets +3h. -/
theorem C6_row_order_and_vilnius_index :
    (∀ (resp : ResponseData) (levels : Nat) (t : ResultTable),
      unravel resp levels = .ok t →
      t.index = resp.timeseries.map (fun e => vilniusNaive e.fromTime) ∧
      t.rows.length = resp.timeseries.length) ∧
    vilniusNaive (daysFromCivil 2024 3 30 * 86400 + 22 * 3600) =
      daysFromCivil 2024 3 30 * 86400 + 22 * 3600 + 7200 ∧
    vilniusNaive (daysFromCivil 2024 6 1 * 86400) =
      daysFromCivil 2024 6 1 * 86400 + 10800 := by
  refine ⟨fun resp levels t h => ?_, by decide, by decide⟩
  obtain ⟨cmap, _, hidx, hlen, _, _⟩ := unravel_ok_parts resp levels t h
  exact ⟨hidx, hlen⟩

/-- C6 witness: the general part applied to a concrete two-entry response
(entries deliberately out of chronological order, preserved as given). -/
theorem C6_row_order_and_vilnius_index_witness :
    (⟨["A"], [7300, 7200], [[JVal.num 1], [JVal.num 2]]⟩ : ResultTable).index =
      [(⟨100, [JVal.num 1]⟩ : TimeseriesEntry), ⟨0, [JVal.num 2]⟩].map
        (fun e => vilniusNaive e.fromTime) ∧
    (⟨["A"], [7300, 7200], [[JVal.num 1], [JVal.num 2]]⟩ : ResultTable).rows.length =
      [(⟨100, [JVal.num 1]⟩ : TimeseriesEntry), ⟨0, [JVal.num 2]⟩].length :=
  C6_row_order_and_vilnius_index.1
    ⟨[⟨0, some "A", none, none⟩], [⟨100, [JVal.num 1]⟩, ⟨0, [JVal.num 2]⟩]⟩ 1
    ⟨["A"], [7300, 7200], [[JVal.num 1], [JVal.num 2]]⟩ (by decide)

/-- C9: when several column descriptors map to the same display name at the
requested depth, their values collide inside each row record: the record's
value under a name is the value at the highest mapped index (dict overwrite),
no error is raised, and the table has fewer columns than descriptors — shown
concretely for two depth-1 descriptors both named "X", where the value at
index 1 wins and one column remains out of two descriptors. -/
theorem C9_duplicate_names_overwrite :
    (∀ (cmap : List (Nat × String)) (e : TimeseriesEntry) (k : String),
      alookup k (buildRecord cmap e) =
        match lastWriteFrom cmap 0 e.values k with
        | some v => some (Cell.val v)
        | none => if "datetime" = k then some (Cell.time e.fromTime) else none) ∧
    unravel ⟨[⟨0, some "X", none, none⟩, ⟨1, some "X", none, none⟩],
             [⟨0, [JVal.num 1, JVal.num 2]⟩]⟩ 1 =
      .ok ⟨["X"], [7200], [[JVal.num 2]]⟩ ∧
    (⟨["X"], [7200], [[JVal.num 2]]⟩ : ResultTable).cols.length <
      ([⟨0, some "X", none, none⟩, ⟨1, some "X", none, none⟩] : List ColumnInfo).length := by
  refine ⟨fun cmap e k => ?_, by decide, by decide⟩
  rw [buildRecord, addValues_alookup]
  rcases lastWriteFrom cmap 0 e.values k with _ | w
  · simp [alookup]
  · rfl

theorem addNet_then_scale (cols : List String) (index2 : List Int)
    (rows2 : List (List JVal)) :
    (match specAddBalticsNet ⟨cols, index2, rows2⟩ with
      | .error e => Except.error e
      | .ok t' => .ok (specScale4 t')) =
    match rows2.mapM rowSum with
      | .error e => .error e
      | .ok sums => .ok (⟨cols ++ ["Baltics_net"], index2,
          (rows2.zip sums).map
            (fun p => p.1.map (scaleCell 4) ++ [JVal.num (4 * p.2)])⟩ : ResultTable) := by
  rw [specAddBalticsNet]
  rcases hms : rows2.mapM rowSum with e | sums
  · rfl
  · simp only [specScale4, List.map_map]
    have hfun : ((fun r => List.map (scaleCell 4) r) ∘
        fun p : List JVal × ℚ => p.1 ++ [JVal.num p.2]) =
        fun p : List JVal × ℚ => p.1.map (scaleCell 4) ++ [JVal.num (4 * p.2)] := by
      funext p
      simp [scaleCell]
    rw [hfun]

/-- C1: the post-processed variant's transform coerces every column whose
display name contains "Downward" to numeric (non-numeric cells become
missing) and negates it, drops every row containing a missing value, appends
a column "Baltics_net" holding the row-wise sum over all existing columns,
and finally multiplies every cell (Baltics_net included) by 4, in that
order; on a one-row table with Up=5, Downward=3 the pre-scaling table is
Up=5, Downward=-3, Baltics_net=2 and the result is Up=20, Downward=-12,
Baltics_net=8. -/
theorem C1_mod_post_pipeline :
    (∀ t : ResultTable, mod_post t = specModPipeline t) ∧
    mod_post ⟨["Up", "Downward"], [100], [[JVal.num 5, JVal.num 3]]⟩ =
      .ok ⟨["Up", "Downward", "Baltics_net"], [100],
           [[JVal.num 20, JVal.num (-12), JVal.num 8]]⟩ ∧
    specAddBalticsNet (specDropMissing (specNegateDownward
        ⟨["Up", "Downward"], [100], [[JVal.num 5, JVal.num 3]]⟩)) =
      .ok ⟨["Up", "Downward", "Baltics_net"], [100],
           [[JVal.num 5, JVal.num (-3), JVal.num 2]]⟩ ∧
    mod_post ⟨["Downward"], [1, 2], [[JVal.str "x"], [JVal.num 1]]⟩ =
      .ok ⟨["Downward", "Baltics_net"], [2], [[JVal.num (-4), JVal.num (-4)]]⟩ := by
  refine ⟨fun t => ?_, ?_, ?_, ?_⟩
  · rw [mod_post, specModPipeline, specNegateDownward, specDropMissing]
    simp only
    rw [addNet_then_scale]
  · norm_num +decide [mod_post, hasDownward, isSubChars, toNumeric, scaleCell, isNA,
      rowSum, List.mapM, List.mapM.loop]
  · norm_num +decide [specAddBalticsNet, specDropMissing, specNegateDownward,
      hasDownward, isSubChars, toNumeric, scaleCell, isNA, rowSum, List.mapM,
      List.mapM.loop]
  · norm_num +decide [mod_post, hasDownward, isSubChars, toNumeric, scaleCell, isNA,
      rowSum, List.mapM, List.mapM.loop]

/-- C7: every per-series façade method is exactly the composition of the
request builder at its fixed series id with the unraveler at its fixed
grouping depth, for every transport environment; the modified
total-satisfied-demand variant additionally applies only the documented
post-processing transform. -/
theorem C7_facade_catalog (loads : String → Except String ResponseData)
    (server : String → HttpResponse) :
    procured_balancing_reserve_prices_df loads server =
      runSeries loads server "price_procured_reserves" 3 ∧
    cbmp_df loads server = runSeries loads server "cross_border_marginal_price" 3 ∧
    imbalance_volumes_df loads server = runSeries loads server "imbalance_volumes_v2" 1 ∧
    activated_afrr_volumes_df loads server = runSeries loads server "activations_afrr" 2 ∧
    balancing_energy_ref_prices_df loads server =
      runSeries loads server "balancing_energy_prices" 2 ∧
    current_balancing_state_df loads server =
      runSeries loads server "current_balancing_state_v2" 1 ∧
    direction_of_system_balancing_df loads server =
      runSeries loads server "direction_of_balancing_v2" 1 ∧
    imbalance_prices_df loads server = runSeries loads server "imbalance_prices" 1 ∧
    local_marginal_prices_df loads server = runSeries loads server "local_marginal_price" 2 ∧
    local_marginal_afrr_prices_df loads server =
      runSeries loads server "local_marginal_price_afrr" 2 ∧
    normal_activations_da_volumes_df loads server =
      runSeries loads server "normal_activations_da_mfrr" 2 ∧
    normal_activations_sa_volumes_df loads server =
      runSeries loads server "normal_activations_sa_mfrr" 2 ∧
    normal_activations_total_volumes_df loads server =
      runSeries loads server "normal_activations_total" 2 ∧
    total_satisfied_demand_for_balancing_purposes_df loads server =
      runSeries loads server "total_satisfied_demand_for_balancing_purposes" 2 ∧
    total_satisfied_demand_for_balancing_purposes_mod_df loads server =
      (match runSeries loads server "total_satisfied_demand_for_balancing_purposes" 2 with
       | .error e => .error e
       | .ok df => mod_post df) := by
  refine ⟨rfl, rfl, rfl, rfl, rfl, rfl, rfl, rfl, rfl, rfl, rfl, rfl, rfl, rfl, ?_⟩
  rw [total_satisfied_demand_for_balancing_purposes_mod_df, runSeries]
  rcases get_data (server "total_satisfied_demand_for_balancing_purposes") with e | response
  · rfl
  · rcases unravel_response loads response 2 with e | df <;> rfl
